import Mathlib

/-!
Verification of the cargo-agent shipment feasibility engine.

The development shallowly embeds the two classifier variants found in
app.py (the v41 variant, lines 1-565, and the v38 variant, lines 565-1059)
and the reliability scorer of modules/fra_engine.py.  Clock times are
modelled as minutes after midnight (a Nat), calendar dates as day indices
(an Int), and instants on a linear time axis as minutes (an Int).
Python string operations that the engine relies on (substring search,
datetime.strptime with the pattern H:M, re.findall of time-shaped
substrings, strftime) are implemented executably on Lean strings.
Zero-padded clock strings of the form HH:MM compare lexicographically
exactly as their minute values compare numerically, which is how the
string comparisons on departure times in the source are rendered below.
-/

set_option maxHeartbeats 1000000

namespace CargoAgent

/-! ## Python string primitives -/

/-- Whether the first character list is an initial segment of the second. -/
def startsWithChars : List Char → List Char → Bool
  | [], _ => true
  | _ :: _, [] => false
  | a :: as, b :: bs => a == b && startsWithChars as bs

/-- Substring search on character lists. -/
def subAt (needle : List Char) : List Char → Bool
  | [] => startsWithChars needle []
  | c :: t => startsWithChars needle (c :: t) || subAt needle t

/-- Python `needle in hay` on strings. -/
def pyIn (needle hay : String) : Bool := subAt needle.data hay.data

/-- Numeric value of a decimal digit character. -/
def dVal (c : Char) : Nat := c.toNat - 48

/-- Build a clock value out of an hour and a minute field, enforcing the
bounds that datetime.strptime enforces for %H and %M. -/
def mkHM (h m : Nat) (ok : Bool) : Option Nat :=
  if ok && decide (h ≤ 23) && decide (m ≤ 59) then some (60 * h + m) else none

/-- datetime.strptime(s, "%H:%M") as minutes after midnight: a one- or
two-digit hour, a colon, a one- or two-digit minute, hour at most 23 and
minute at most 59.  The value none models the ValueError raised on any
other input. -/
def parseHM (s : String) : Option Nat :=
  match s.data with
  | [h1, ':', m1] => mkHM (dVal h1) (dVal m1) (h1.isDigit && m1.isDigit)
  | [h1, ':', m1, m2] =>
      mkHM (dVal h1) (10 * dVal m1 + dVal m2) (h1.isDigit && m1.isDigit && m2.isDigit)
  | [h1, h2, ':', m1] =>
      mkHM (10 * dVal h1 + dVal h2) (dVal m1) (h1.isDigit && h2.isDigit && m1.isDigit)
  | [h1, h2, ':', m1, m2] =>
      mkHM (10 * dVal h1 + dVal h2) (10 * dVal m1 + dVal m2)
        (h1.isDigit && h2.isDigit && m1.isDigit && m2.isDigit)
  | _ => none

/-- Two-digit zero padding, as strftime emits for %H and %M. -/
def pad2 (n : Nat) : String := if n < 10 then "0" ++ toString n else toString n

/-- strftime("%H:%M") of a clock value given in minutes after midnight. -/
def clockToStr (m : Nat) : String := pad2 (m / 60 % 24) ++ ":" ++ pad2 (m % 60)

/-- One step of re.findall of the pattern of one or two digits, a colon and
two digits: try to match at the head of the list, returning the matched text
and the remaining characters.  The two-digit-hour alternative is preferred,
matching the greedy quantifier of the regular expression. -/
def matchTimeAt : List Char → Option (String × List Char)
  | a :: b :: c :: d :: e :: rest =>
      if a.isDigit && b.isDigit && c == ':' && d.isDigit && e.isDigit then
        some (String.mk [a, b, c, d, e], rest)
      else if a.isDigit && b == ':' && c.isDigit && d.isDigit then
        some (String.mk [a, b, c, d], e :: rest)
      else none
  | [a, b, c, d] =>
      if a.isDigit && b == ':' && c.isDigit && d.isDigit then
        some (String.mk [a, b, c, d], []) else none
  | _ => none

/-- Fuelled scan for non-overlapping leftmost matches; the fuel is always
instantiated with the length of the list, which suffices because every
step consumes at least one character. -/
def findTimesAux : Nat → List Char → List String
  | 0, _ => []
  | _ + 1, [] => []
  | fuel + 1, c :: rest =>
      match matchTimeAt (c :: rest) with
      | some (m, rest2) => m :: findTimesAux fuel rest2
      | none => findTimesAux fuel rest

/-- re.findall of the time-shaped pattern over a character list. -/
def findTimes (l : List Char) : List String := findTimesAux l.length l

/-! ## Facility-hours range checks (app.py) -/

/-- LogisticsTools.check_time_in_range of the v41 variant (app.py lines
156-167): sentinel vocabulary first, then the parsed two-time window with
the wrap-around case, returning true on any parsing trouble. -/
def check_time_in_range (target_time range_str : String) : Bool :=
  if pyIn "24" range_str || pyIn "Daily" range_str then true
  else if pyIn "Closed" range_str || pyIn "N/A" range_str then false
  else
    match findTimes range_str.data with
    | [t0, t1] =>
        match parseHM t0, parseHM t1, parseHM target_time with
        | some s, some e, some c =>
            if s ≤ e then decide (s ≤ c ∧ c ≤ e) else decide (s ≤ c ∨ c ≤ e)
        | _, _, _ => true
    | _ => true

/-- LogisticsTools.check_time_in_range of the v38 variant (app.py lines
698-701): only the sentinel vocabulary is consulted; the clock times in the
range string are never parsed. -/
def check_time_in_range_v38 (_target_time range_str : String) : Bool :=
  if pyIn "24" range_str || pyIn "Daily" range_str then true
  else if pyIn "Closed" range_str then false
  else true

/-- Result record of LogisticsTools.get_cargo_hours in the v41 variant. -/
structure CargoHours where
  status : String
  hours : String
  source : String

/-- The fall-through of get_cargo_hours (app.py line 154) when neither the
master file nor the web search yields any data for the airport, carrier and
date at hand. -/
def noDataHours : CargoHours :=
  { status := "Unknown", hours := "Unknown", source := "No Data" }

/-! ## Reliability engine (modules/fra_engine.py) -/

/-- Weather portion of analyze_reliability (fra_engine.py lines 69-84):
start at 100 and apply the four deduction rules in order. -/
def weatherScore (taf : String) : Int :=
  let s0 : Int := 100
  let s1 := if pyIn "TS" taf then s0 - 30 else s0
  let s2 := if pyIn "FG" taf || pyIn "BR" taf then s1 - 20 else s1
  let s3 := if pyIn "SN" taf then s2 - 40 else s2
  let s4 := if pyIn "VV" taf then s3 - 30 else s3
  s4

/-- ASCII lower-casing of one character, as str.lower acts on the ASCII
range that flight statuses use. -/
def lowerChar (c : Char) : Char :=
  if 'A' ≤ c ∧ c ≤ 'Z' then Char.ofNat (c.toNat + 32) else c

/-- Python str.lower on a string of ASCII characters. -/
def pyLower (s : String) : String := String.mk (s.data.map lowerChar)

/-- Case-insensitive status test of fra_engine.py lines 86-96. -/
def isBadStatus (status : String) : Bool :=
  decide (pyLower status = "cancelled") || decide (pyLower status = "incident")
    || decide (pyLower status = "diverted")

/-- The score field returned by analyze_reliability as a function of the
flight status and the raw TAF string: the status check overwrites the
weather-derived score with 0. -/
def analyze_reliability_score (status taf : String) : Int :=
  if isBadStatus status then 0 else weatherScore taf

/-- The final status field returned by analyze_reliability (fra_engine.py
lines 99-101). -/
def analyze_reliability_status (status taf : String) : String :=
  if analyze_reliability_score status taf > 80 then "GO / GREEN"
  else if analyze_reliability_score status taf > 50 then "CAUTION / YELLOW"
  else "NO-GO / RED"

/-! ## Feasibility window calculator (app.py lines 404-428 and 878-895) -/

/-- total_prep: the drive time floored by the pickup buffer, plus the fixed
60-minute handling cost. -/
def total_prep (driveMin pBuff : Int) : Int := max driveMin pBuff + 60

/-- earliest_dep_dt on a linear minute axis. -/
def earliest_dep_dt (pickupInstant driveMin pBuff : Int) : Int :=
  pickupInstant + total_prep driveMin pBuff

/-- total_post: the delivery drive time floored by the delivery buffer, plus
the fixed 60-minute handling cost. -/
def total_post (driveMin dBuff : Int) : Int := max driveMin dBuff + 60

/-- latest_arr_dt on a linear minute axis. -/
def latest_arr_dt (deadlineInstant driveMin dBuff : Int) : Int :=
  deadlineInstant - total_post driveMin dBuff

/-! ## Flight eligibility classifiers

The rejection reasons of the classification loops.  The source stores
formatted strings; the constructors below stand for the four families of
strings it builds: "Origin Closed (...)" / "Org Closed (...)",
"Too Early (Dep ...)", "Short Conn ...", and
"Arrives Too Late (Day+)" / "Arrives Late (...)". -/

inductive RejectReason where
  | originClosed
  | tooEarly
  | shortConn
  | tooLate
deriving DecidableEq

/-- One candidate flight as the classification loops consume it.  The time
fields hold the result of parsing the corresponding strings: depT and arrT
are the clock fields "Dep Time" and "Arr Time" in minutes after midnight
(none models a string strptime cannot parse), and arrFull is the full
"Arr Full" timestamp as a day index paired with a clock (none models an
unparsable timestamp). -/
structure Flight where
  airline : String
  flightNum : String
  depT : Option Nat
  arrT : Option Nat
  arrFull : Option (Int × Nat)
  connApt : String
  connMin : Int
deriving DecidableEq

/-- Per-run context of the v41 classification loop: the cached origin and
destination hours strings, the earliest-departure clock (earliest_dep_str,
whose lexicographic comparison with a zero-padded departure clock equals the
numeric comparison used here), the minimum connection minutes, latest_arr_dt
(some exactly when a deadline is set; its value is an instant on the linear
minute axis), the search date as a day index and the transit-day offset. -/
structure ConfigV41 where
  pHours : String
  dHours : String
  earliestClock : Nat
  minConn : Int
  latestArr : Option Int
  searchDate : Int
  delOffset : Int

/-- Per-run context of the v38 classification loop; latestArrClock is the
clock part latest_arr_dt.time() that the v38 arrival check compares with. -/
structure ConfigV38 where
  pHours : String
  dHours : String
  earliestClock : Nat
  minConn : Int
  latestArrClock : Option Nat
  searchDate : Int
  delOffset : Int

/-- Tender clock: the departure clock minus the 120-minute tender lead,
wrapped at midnight exactly as strptime-minus-timedelta-strftime wraps. -/
def tenderClock (dep : Nat) : Nat := (dep + 1440 - 120) % 1440

/-- Recovery clock: the arrival clock plus the 60-minute recovery lag,
wrapped at midnight. -/
def recClock (arr : Nat) : Nat := (arr + 60) % 1440

/-- Rule 1 of the v41 loop (app.py line 458): the origin facility is closed
at tender time. -/
def origin_closed_v41 (cfg : ConfigV41) (dep : Nat) : Bool :=
  !check_time_in_range (clockToStr (tenderClock dep)) cfg.pHours

/-- Rule 2 of the v41 loop (line 468): departure before the earliest
allowable departure. -/
def too_early_v41 (cfg : ConfigV41) (dep : Nat) : Bool :=
  decide (dep < cfg.earliestClock)

/-- Rule 3 of the v41 loop (line 471): a connecting itinerary whose
connection is shorter than the configured minimum. -/
def short_conn_v41 (cfg : ConfigV41) (f : Flight) : Bool :=
  decide (f.connApt ≠ "Direct") && decide (f.connMin < cfg.minConn)

/-- Rule 4 of the v41 loop (lines 474-479): a deadline is set, the full
arrival timestamp parses, and the arrival DATE is strictly after the search
date plus the transit offset.  The arrival clock plays no role in v41. -/
def too_late_v41 (cfg : ConfigV41) (f : Flight) : Bool :=
  match cfg.latestArr, f.arrFull with
  | some _, some (ad, _) => decide (cfg.searchDate + cfg.delOffset < ad)
  | _, _ => false

/-- The v41 sequence of guarded assignments to reject_reason for rules 2-4
(lines 468-479), continuing from the rule-1 outcome r1: each later rule
only fires while no reason is set yet. -/
def chainV41 (cfg : ConfigV41) (f : Flight) (dep : Nat)
    (r1 : Option RejectReason) : Option RejectReason :=
  let r2 := if too_early_v41 cfg dep && decide (r1 = none) then
      some RejectReason.tooEarly else r1
  let r3 := if short_conn_v41 cfg f && decide (r2 = none) then
      some RejectReason.shortConn else r2
  let r4 :=
    match cfg.latestArr with
    | none => r3
    | some _ =>
        if r3 = none then
          match f.arrFull with
          | none => r3
          | some (ad, _) =>
              if cfg.searchDate + cfg.delOffset < ad then
                some RejectReason.tooLate
              else r3
        else r3
  r4

/-- The v41 classification loop body (app.py lines 443-488) for one
candidate flight.  The outer none models the uncaught ValueError that
escapes the loop when strptime fails on "Dep Time" (line 455) or, once
rule 1 has passed, on "Arr Time" (line 463); otherwise the result carries
the final reject_reason (none means accepted) and the advisory note written
by the recovery-window check (lines 461-466), which never causes
rejection. -/
def classifyV41 (cfg : ConfigV41) (f : Flight) :
    Option (Option RejectReason × Option String) :=
  match f.depT with
  | none => none
  | some dep =>
      let r1 := if origin_closed_v41 cfg dep then
          some RejectReason.originClosed else none
      if r1 = none then
        match f.arrT with
        | none => none
        | some arr =>
            let note :=
              if !check_time_in_range (clockToStr (recClock arr)) cfg.dHours then
                some ("AM Recovery (Closed at " ++ clockToStr (recClock arr) ++ ")")
              else none
            some (chainV41 cfg f dep r1, note)
      else
        some (chainV41 cfg f dep r1, none)

/-- The ordered rule chain as the spec states it: the first failing rule,
in the fixed order origin-closed, too-early, short-connection,
arrives-too-late, determines the reported reason. -/
def specRuleChainV41 (cfg : ConfigV41) (f : Flight) (dep : Nat) :
    Option RejectReason :=
  if origin_closed_v41 cfg dep then some RejectReason.originClosed
  else if too_early_v41 cfg dep then some RejectReason.tooEarly
  else if short_conn_v41 cfg f then some RejectReason.shortConn
  else if too_late_v41 cfg f then some RejectReason.tooLate
  else none

/-- Rule 1 of the v38 loop (app.py line 921), using the v38 range check. -/
def origin_closed_v38 (cfg : ConfigV38) (dep : Nat) : Bool :=
  !check_time_in_range_v38 (clockToStr (tenderClock dep)) cfg.pHours

/-- Rule 2 of the v38 loop (line 924). -/
def too_early_v38 (cfg : ConfigV38) (dep : Nat) : Bool :=
  decide (dep < cfg.earliestClock)

/-- Rule 3 of the v38 loop (line 927). -/
def short_conn_v38 (cfg : ConfigV38) (f : Flight) : Bool :=
  decide (f.connApt ≠ "Direct") && decide (f.connMin < cfg.minConn)

/-- Rule 4 of the v38 loop (lines 930-938): the arrival day offset exceeds
the transit offset, or equals it with the arrival clock strictly after the
latest-arrival clock. -/
def too_late_v38 (cfg : ConfigV38) (f : Flight) : Bool :=
  match cfg.latestArrClock, f.arrFull with
  | some lc, some (ad, ac) =>
      decide (cfg.delOffset < ad - cfg.searchDate) ||
        (decide (ad - cfg.searchDate = cfg.delOffset) && decide (lc < ac))
  | _, _ => false

/-- The v38 sequence of assignments to reject (app.py lines 916-938).  The
checks for rules 2 and 3 are NOT guarded by an existing reason, so they
overwrite it; only rule 4 is guarded. -/
def chainV38 (cfg : ConfigV38) (f : Flight) (dep : Nat) : Option RejectReason :=
  let r1 := if origin_closed_v38 cfg dep then
      some RejectReason.originClosed else none
  let r2 := if too_early_v38 cfg dep then some RejectReason.tooEarly else r1
  let r3 := if short_conn_v38 cfg f then some RejectReason.shortConn else r2
  let r4 :=
    match cfg.latestArrClock with
    | none => r3
    | some lc =>
        if r3 = none then
          match f.arrFull with
          | none => r3
          | some (ad, ac) =>
              if cfg.delOffset < ad - cfg.searchDate then
                some RejectReason.tooLate
              else if ad - cfg.searchDate = cfg.delOffset ∧ lc < ac then
                some RejectReason.tooLate
              else r3
        else r3
  r4

/-- The v38 classification loop body (app.py lines 903-954): the reason
chain, then on acceptance the recovery-note computation, which parses
"Arr Time" (line 948, uncaught on failure, modelled by the outer none). -/
def classifyV38 (cfg : ConfigV38) (f : Flight) :
    Option (Option RejectReason × Option String) :=
  match f.depT with
  | none => none
  | some dep =>
      match chainV38 cfg f dep with
      | some r => some (some r, none)
      | none =>
          match f.arrT with
          | none => none
          | some arr =>
              some (none,
                if !check_time_in_range_v38 (clockToStr (recClock arr)) cfg.dHours
                then some "AM Recovery" else some "OK")

/-- The precedence the v38 loop actually implements: the LAST failing rule
among rules 1-3 wins (short-connection over too-early over origin-closed),
and the arrives-late rule applies only when none of rules 1-3 failed. -/
def actualPriorityV38 (cfg : ConfigV38) (f : Flight) (dep : Nat) :
    Option RejectReason :=
  if short_conn_v38 cfg f then some RejectReason.shortConn
  else if too_early_v38 cfg dep then some RejectReason.tooEarly
  else if origin_closed_v38 cfg dep then some RejectReason.originClosed
  else if too_late_v38 cfg f then some RejectReason.tooLate
  else none

/-! ## Schedule aggregator (app.py lines 540-553 and 1026-1039) -/

/-- One accepted verdict as the aggregation loop consumes it: the four
grouping fields, kept as the display strings the source groups on, and the
operating-day label attached during classification. -/
structure VRow where
  airline : String
  flightNum : String
  depTime : String
  arrTime : String
  day : String

/-- The grouping key (app.py line 542). -/
abbrev GKey := String × String × String × String

/-- key = (Airline, Flight, Dep Time, Arr Time). -/
def keyOf (v : VRow) : GKey := (v.airline, v.flightNum, v.depTime, v.arrTime)

/-- Adding a day to the set of operating days of a row; the set is
represented by its list of members and addition is membership-guarded. -/
def addDay (d : String) (ds : List String) : List String :=
  if d ∈ ds then ds else ds ++ [d]

/-- One iteration of the grouping loop: route the verdict to the row with
its key, creating the row if the key is new (dict insertion order). -/
def addToGroups (gs : List (GKey × List String)) (v : VRow) :
    List (GKey × List String) :=
  match gs with
  | [] => [(keyOf v, [v.day])]
  | (k, ds) :: rest =>
      if k = keyOf v then (k, addDay v.day ds) :: rest
      else (k, ds) :: addToGroups rest v

/-- The grouping loop over all accepted verdicts. -/
def groupRows (vs : List VRow) : List (GKey × List String) :=
  vs.foldl addToGroups []

/-- The day d is recorded in the row keyed k. -/
def hasDay (gs : List (GKey × List String)) (k : GKey) (d : String) : Prop :=
  ∃ ds, (k, ds) ∈ gs ∧ d ∈ ds

/-- The canonical day order used as the sort key list (line 551). -/
def canonDays : List String :=
  ["Mon", "Tue", "Wed", "Thu", "Fri", "Sat", "Sun", "One-Time"]

/-- The sort key of line 551: the index in the canonical list, or 99. -/
def canonIdx (d : String) : Nat :=
  match canonDays.findIdx? (fun x => x == d) with
  | some i => i
  | none => 99

/-- Insertion into a list sorted by the canonical key. -/
def insDay (x : String) : List String → List String
  | [] => [x]
  | y :: ys => if canonIdx y ≤ canonIdx x then y :: insDay x ys
      else x :: y :: ys

/-- The sort by canonical day key applied to the days of a row. -/
def sortDays : List String → List String
  | [] => []
  | x :: xs => insDay x (sortDays xs)

/-! ## Concrete sample inputs for witnesses and counterexamples -/

/-- A direct candidate departing 08:00, arriving 10:00 on the search date. -/
def fDirect0800 : Flight :=
  { airline := "AA", flightNum := "AA100", depT := some 480, arrT := some 600,
    arrFull := some (0, 600), connApt := "Direct", connMin := 0 }

/-- A connecting candidate departing 08:00 with a 30-minute connection. -/
def fConn0800 : Flight :=
  { airline := "AA", flightNum := "AA200 / AA201", depT := some 480, arrT := some 600,
    arrFull := some (0, 600), connApt := "ORD", connMin := 30 }

/-- v41 context whose origin hours carry the Closed sentinel and whose
earliest departure is 12:00, so rules 1 and 2 both fail for fDirect0800. -/
def cfgClosed41 : ConfigV41 :=
  { pHours := "Closed", dHours := "24 Hours", earliestClock := 720, minConn := 60,
    latestArr := none, searchDate := 0, delOffset := 0 }

/-- v38 context whose origin hours carry the Closed sentinel and whose
earliest departure is 12:00. -/
def cfgClosed38 : ConfigV38 :=
  { pHours := "Closed", dHours := "24 Hours", earliestClock := 720, minConn := 60,
    latestArrClock := none, searchDate := 0, delOffset := 0 }

/-- v38 context with open origin hours and earliest departure 12:00. -/
def cfgOpen38 : ConfigV38 :=
  { pHours := "24 Hours", dHours := "24 Hours", earliestClock := 720, minConn := 60,
    latestArrClock := none, searchDate := 0, delOffset := 0 }

/-- The deadline scenario of the spec for the v41 classifier: deadline
18:00 on the next day, post 180 minutes, hence latest_arr_dt at minute
2340, which is 15:00 of day 1; no other rule binds. -/
def cfgScenario41 : ConfigV41 :=
  { pHours := "24 Hours", dHours := "24 Hours", earliestClock := 0, minConn := 60,
    latestArr := some 2340, searchDate := 0, delOffset := 1 }

/-- The same deadline scenario for the v38 classifier: latest-arrival
clock 15:00. -/
def cfgScenario38 : ConfigV38 :=
  { pHours := "24 Hours", dHours := "24 Hours", earliestClock := 0, minConn := 60,
    latestArrClock := some 900, searchDate := 0, delOffset := 1 }

/-- A direct flight departing 10:00, arriving 15:30 the next day. -/
def fArr1530 : Flight :=
  { airline := "DL", flightNum := "DL10", depT := some 600, arrT := some 930,
    arrFull := some (1, 930), connApt := "Direct", connMin := 0 }

/-- A direct flight departing 10:00, arriving 14:45 the next day. -/
def fArr1445 : Flight :=
  { airline := "DL", flightNum := "DL11", depT := some 600, arrT := some 885,
    arrFull := some (1, 885), connApt := "Direct", connMin := 0 }

/-- A flight whose departure clock string does not parse. -/
def fBadDep : Flight :=
  { airline := "UA", flightNum := "UA1", depT := none, arrT := some 930,
    arrFull := some (1, 930), connApt := "Direct", connMin := 0 }

/-- A flight whose full arrival timestamp does not parse; the clock
fields parse fine. -/
def fBadArrFull : Flight :=
  { airline := "UA", flightNum := "UA2", depT := some 600, arrT := some 930,
    arrFull := none, connApt := "Direct", connMin := 0 }

/-- The recovery scenario context: destination window 08:00-22:00 and no
deadline; nothing else binds. -/
def cfgRecovery : ConfigV41 :=
  { pHours := "24 Hours", dHours := "08:00-22:00", earliestClock := 0, minConn := 60,
    latestArr := none, searchDate := 0, delOffset := 0 }

/-- A direct flight arriving 23:00, whose recovery instant 00:00 falls
outside the 08:00-22:00 destination window. -/
def fArr2300 : Flight :=
  { airline := "AA", flightNum := "AA300", depT := some 600, arrT := some 1380,
    arrFull := some (0, 1380), connApt := "Direct", connMin := 0 }

/-- v41 context whose origin facility hours resolved to the no-data
Unknown result; earliest departure 12:00. -/
def cfgUnknown41 : ConfigV41 :=
  { pHours := "Unknown", dHours := "Unknown", earliestClock := 720, minConn := 60,
    latestArr := none, searchDate := 0, delOffset := 0 }

/-! ## Helper lemmas about the classifiers -/

lemma chainV41_some (cfg : ConfigV41) (f : Flight) (dep : Nat) (r : RejectReason) :
    chainV41 cfg f dep (some r) = some r := by
  cases h : cfg.latestArr <;> simp [chainV41, h]

lemma chainV41_none (cfg : ConfigV41) (f : Flight) (dep : Nat) :
    chainV41 cfg f dep none =
      (if too_early_v41 cfg dep then some RejectReason.tooEarly
       else if short_conn_v41 cfg f then some RejectReason.shortConn
       else if too_late_v41 cfg f then some RejectReason.tooLate
       else none) := by
  cases h1 : too_early_v41 cfg dep <;>
  cases h2 : short_conn_v41 cfg f <;>
  cases h3 : cfg.latestArr <;>
  cases h4 : f.arrFull <;>
  simp [chainV41, too_late_v41, h1, h2, h3, h4] <;>
  split_ifs <;> simp_all

/-- The v41 loop reports the first failing rule in the fixed order
1 origin-closed, 2 too-early, 3 short-connection, 4 arrives-too-late. -/
lemma classifyV41_spec (cfg : ConfigV41) (f : Flight) (dep arr : Nat)
    (hdep : f.depT = some dep) (harr : f.arrT = some arr) :
    (classifyV41 cfg f).map Prod.fst = some (specRuleChainV41 cfg f dep) := by
  cases h1 : origin_closed_v41 cfg dep <;>
    simp [classifyV41, hdep, harr, h1, specRuleChainV41, chainV41_some, chainV41_none]

lemma chainV38_eq (cfg : ConfigV38) (f : Flight) (dep : Nat) :
    chainV38 cfg f dep = actualPriorityV38 cfg f dep := by
  cases h1 : origin_closed_v38 cfg dep <;>
  cases h2 : too_early_v38 cfg dep <;>
  cases h3 : short_conn_v38 cfg f <;>
  cases h4 : cfg.latestArrClock <;>
  cases h5 : f.arrFull <;>
  simp [chainV38, actualPriorityV38, too_late_v38, h1, h2, h3, h4, h5] <;>
  split_ifs <;> simp_all <;> omega

/-- The v38 loop reports the last failing rule among rules 1-3, then
rule 4 only when none of those failed. -/
lemma classifyV38_spec (cfg : ConfigV38) (f : Flight) (dep arr : Nat)
    (hdep : f.depT = some dep) (harr : f.arrT = some arr) :
    (classifyV38 cfg f).map Prod.fst = some (actualPriorityV38 cfg f dep) := by
  rw [← chainV38_eq]
  cases hc : chainV38 cfg f dep <;> simp [classifyV38, hdep, harr, hc]

/-- The permissive no-data hours string defeats every clause of the v41
range check: no sentinel matches and no time-shaped substring exists, so
the check accepts every clock. -/
lemma check_range_unknown (t : String) :
    check_time_in_range t "Unknown" = true := rfl

/-! ## Helper lemmas about the aggregator -/

lemma hasDay_nil (k : GKey) (d : String) : ¬ hasDay [] k d := by simp [hasDay]

lemma hasDay_cons (p : GKey × List String) (t : List (GKey × List String))
    (k : GKey) (d : String) :
    hasDay (p :: t) k d ↔ (k = p.1 ∧ d ∈ p.2) ∨ hasDay t k d := by
  obtain ⟨k0, ds0⟩ := p
  constructor
  · rintro ⟨ds, hmem, hd⟩
    rcases List.mem_cons.mp hmem with heq | hm
    · have hk : k = k0 := congrArg Prod.fst heq
      have hds : ds = ds0 := congrArg Prod.snd heq
      subst hds
      exact Or.inl ⟨hk, hd⟩
    · exact Or.inr ⟨ds, hm, hd⟩
  · rintro (⟨hk, hd⟩ | ⟨ds, hm, hd⟩)
    · exact ⟨ds0, List.mem_cons.mpr (Or.inl (by rw [hk])), hd⟩
    · exact ⟨ds, List.mem_cons.mpr (Or.inr hm), hd⟩

lemma mem_addDay (x d : String) (ds : List String) :
    d ∈ addDay x ds ↔ d ∈ ds ∨ d = x := by
  unfold addDay
  split_ifs with h
  · constructor
    · exact Or.inl
    · rintro (h1 | rfl)
      · exact h1
      · exact h
  · simp [List.mem_append]

lemma hasDay_add (gs : List (GKey × List String)) (v : VRow) (k : GKey) (d : String) :
    hasDay (addToGroups gs v) k d ↔ hasDay gs k d ∨ (k = keyOf v ∧ d = v.day) := by
  induction gs with
  | nil =>
    rw [show addToGroups [] v = [(keyOf v, [v.day])] from rfl, hasDay_cons]
    simp [hasDay]
  | cons p t ih =>
    obtain ⟨k0, ds0⟩ := p
    by_cases hk : k0 = keyOf v
    · rw [show addToGroups ((k0, ds0) :: t) v = (k0, addDay v.day ds0) :: t from by
        simp [addToGroups, hk]]
      rw [hasDay_cons, hasDay_cons]
      simp only [mem_addDay]
      subst hk
      tauto
    · rw [show addToGroups ((k0, ds0) :: t) v = (k0, ds0) :: addToGroups t v from by
        simp [addToGroups, hk]]
      rw [hasDay_cons, hasDay_cons, ih]
      tauto

lemma hasDay_foldl (vs : List VRow) :
    ∀ (gs : List (GKey × List String)) (k : GKey) (d : String),
    hasDay (List.foldl addToGroups gs vs) k d ↔
      hasDay gs k d ∨ ∃ v, v ∈ vs ∧ k = keyOf v ∧ d = v.day := by
  induction vs with
  | nil => intro gs k d; simp
  | cons v vs ih =>
    intro gs k d
    rw [List.foldl_cons, ih, hasDay_add]
    simp only [List.mem_cons]
    constructor
    · rintro ((h | ⟨hk, hd⟩) | ⟨w, hw, hkw, hdw⟩)
      · exact Or.inl h
      · exact Or.inr ⟨v, Or.inl rfl, hk, hd⟩
      · exact Or.inr ⟨w, Or.inr hw, hkw, hdw⟩
    · rintro (h | ⟨w, (rfl | hw), hkw, hdw⟩)
      · exact Or.inl (Or.inl h)
      · exact Or.inl (Or.inr ⟨hkw, hdw⟩)
      · exact Or.inr ⟨w, hw, hkw, hdw⟩

lemma hasDay_groupRows (vs : List VRow) (k : GKey) (d : String) :
    hasDay (groupRows vs) k d ↔ ∃ v, v ∈ vs ∧ k = keyOf v ∧ d = v.day := by
  rw [groupRows, hasDay_foldl]
  simp [hasDay]

lemma keys_addToGroups (gs : List (GKey × List String)) (v : VRow) :
    (addToGroups gs v).map Prod.fst =
      if keyOf v ∈ gs.map Prod.fst then gs.map Prod.fst
      else gs.map Prod.fst ++ [keyOf v] := by
  induction gs with
  | nil => simp [addToGroups]
  | cons p t ih =>
    obtain ⟨k0, ds0⟩ := p
    by_cases hk : k0 = keyOf v
    · simp [addToGroups, hk]
    · simp only [addToGroups, if_neg hk, List.map_cons, ih]
      by_cases hm : keyOf v ∈ t.map Prod.fst
      · simp [hm, hk, Ne.symm hk]
      · simp [hm, hk, Ne.symm hk]

lemma nodupKeys_add (gs : List (GKey × List String)) (v : VRow)
    (h : (gs.map Prod.fst).Nodup) : ((addToGroups gs v).map Prod.fst).Nodup := by
  rw [keys_addToGroups]
  split_ifs with hm
  · exact h
  · simp [List.nodup_append, h, hm]

lemma nodupKeys_foldl (vs : List VRow) :
    ∀ gs : List (GKey × List String), (gs.map Prod.fst).Nodup →
    ((List.foldl addToGroups gs vs).map Prod.fst).Nodup := by
  induction vs with
  | nil => intro gs h; simpa using h
  | cons v vs ih =>
    intro gs h
    rw [List.foldl_cons]
    exact ih _ (nodupKeys_add _ _ h)

lemma perm_insDay (x : String) (l : List String) : List.Perm (insDay x l) (x :: l) := by
  induction l with
  | nil => exact List.Perm.refl _
  | cons y ys ih =>
    unfold insDay
    split_ifs
    · exact (ih.cons y).trans (List.Perm.swap x y ys)
    · exact List.Perm.refl _

lemma sorted_insDay (x : String) (l : List String)
    (h : List.Sorted (fun a b => canonIdx a ≤ canonIdx b) l) :
    List.Sorted (fun a b => canonIdx a ≤ canonIdx b) (insDay x l) := by
  induction l with
  | nil => simp [insDay]
  | cons y ys ih =>
    rw [List.sorted_cons] at h
    obtain ⟨hy, hys⟩ := h
    unfold insDay
    split_ifs with hcmp
    · rw [List.sorted_cons]
      refine ⟨?_, ih hys⟩
      intro b hb
      have hb2 := (perm_insDay x ys).mem_iff.mp hb
      rcases List.mem_cons.mp hb2 with rfl | hbys
      · exact hcmp
      · exact hy b hbys
    · rw [List.sorted_cons]
      refine ⟨?_, by rw [List.sorted_cons]; exact ⟨hy, hys⟩⟩
      intro b hb
      rcases List.mem_cons.mp hb with rfl | hbys
      · omega
      · have := hy b hbys; omega

lemma sortDays_spec (ds : List String) :
    List.Perm (sortDays ds) ds ∧
      List.Sorted (fun a b => canonIdx a ≤ canonIdx b) (sortDays ds) := by
  induction ds with
  | nil => exact ⟨List.Perm.refl _, List.sorted_nil⟩
  | cons x xs ih =>
    obtain ⟨hp, hs⟩ := ih
    exact ⟨(perm_insDay x (sortDays xs)).trans (hp.cons x), sorted_insDay x _ hs⟩


/-! ## Claim theorems -/

/-- C1 (amended).  In the v41 classification loop the reported rejection
reason is the first failing rule in the fixed order origin-closed,
too-early, short-connection, arrives-too-late; in the v38 loop the
too-early and short-connection checks overwrite an earlier reason, so the
last failing rule among rules 1-3 wins and the arrives-late rule applies
only when none of them failed. -/
theorem claim_C1 :
    (∀ (cfg : ConfigV41) (f : Flight) (dep arr : Nat),
        f.depT = some dep → f.arrT = some arr →
        (classifyV41 cfg f).map Prod.fst = some (specRuleChainV41 cfg f dep)) ∧
    (∀ (cfg : ConfigV38) (f : Flight) (dep arr : Nat),
        f.depT = some dep → f.arrT = some arr →
        (classifyV38 cfg f).map Prod.fst = some (actualPriorityV38 cfg f dep)) :=
  ⟨classifyV41_spec, classifyV38_spec⟩

/-- C1 counterexample.  In the v38 loop a flight failing both the
origin-closed check and the too-early check reports Too Early, and a
flight failing both too-early and short-connection reports Short Conn,
contradicting the claimed first-failing-rule order. -/
theorem claim_C1_cx :
    origin_closed_v38 cfgClosed38 480 = true ∧
    too_early_v38 cfgClosed38 480 = true ∧
    (classifyV38 cfgClosed38 fDirect0800).map Prod.fst =
      some (some RejectReason.tooEarly) ∧
    too_early_v38 cfgOpen38 480 = true ∧
    short_conn_v38 cfgOpen38 fConn0800 = true ∧
    (classifyV38 cfgOpen38 fConn0800).map Prod.fst =
      some (some RejectReason.shortConn) := by
  decide

/-- C1 witness: a v41 flight failing both rule 1 and rule 2 reports
Origin Closed, as the first-failing-rule order demands. -/
theorem claim_C1_w :
    (classifyV41 cfgClosed41 fDirect0800).map Prod.fst =
      some (some RejectReason.originClosed) := by
  rw [claim_C1.1 cfgClosed41 fDirect0800 480 600 rfl rfl]
  decide

/-- C2 (amended).  When rules 1-3 pass, the v41 loop rejects a flight as
arriving too late exactly when a deadline is set, the full arrival
timestamp parses, and the arrival DATE is strictly after the search date
plus the transit offset (the arrival clock is ignored); the v38 loop
rejects exactly when the arrival day offset exceeds the transit offset or
equals it with the arrival clock after the latest-arrival clock. -/
theorem claim_C2 :
    (∀ (cfg : ConfigV41) (f : Flight) (dep arr : Nat),
        f.depT = some dep → f.arrT = some arr →
        origin_closed_v41 cfg dep = false → too_early_v41 cfg dep = false →
        short_conn_v41 cfg f = false →
        ((classifyV41 cfg f).map Prod.fst = some (some RejectReason.tooLate) ↔
          too_late_v41 cfg f = true)) ∧
    (∀ (cfg : ConfigV38) (f : Flight) (dep arr : Nat),
        f.depT = some dep → f.arrT = some arr →
        origin_closed_v38 cfg dep = false → too_early_v38 cfg dep = false →
        short_conn_v38 cfg f = false →
        ((classifyV38 cfg f).map Prod.fst = some (some RejectReason.tooLate) ↔
          too_late_v38 cfg f = true)) := by
  constructor
  · intro cfg f dep arr hdep harr h1 h2 h3
    rw [classifyV41_spec cfg f dep arr hdep harr]
    cases h4 : too_late_v41 cfg f <;> simp [specRuleChainV41, h1, h2, h3, h4]
  · intro cfg f dep arr hdep harr h1 h2 h3
    rw [classifyV38_spec cfg f dep arr hdep harr]
    cases h4 : too_late_v38 cfg f <;> simp [actualPriorityV38, h1, h2, h3, h4]

/-- C2 counterexample.  In the deadline scenario of the spec (latest
allowable arrival 15:00 of day 1, minute 2340) the v41 classifier ACCEPTS
the flight arriving 15:30 of day 1, because only the arrival date, never
the arrival clock, is compared. -/
theorem claim_C2_cx :
    cfgScenario41.latestArr = some 2340 ∧
    fArr1530.arrFull = some (1, 930) ∧
    (classifyV41 cfgScenario41 fArr1530).map Prod.fst = some none := by
  decide

/-- C2 witness: the amended characterization instantiated at the scenario
flights arriving 15:30 and 14:45 of the deadline day. -/
theorem claim_C2_w :
    ((classifyV41 cfgScenario41 fArr1530).map Prod.fst =
        some (some RejectReason.tooLate) ↔
      too_late_v41 cfgScenario41 fArr1530 = true) ∧
    ((classifyV38 cfgScenario38 fArr1530).map Prod.fst =
        some (some RejectReason.tooLate) ↔
      too_late_v38 cfgScenario38 fArr1530 = true) ∧
    ((classifyV38 cfgScenario38 fArr1445).map Prod.fst =
        some (some RejectReason.tooLate) ↔
      too_late_v38 cfgScenario38 fArr1445 = true) :=
  ⟨claim_C2.1 cfgScenario41 fArr1530 600 930 rfl rfl (by decide) (by decide) (by decide),
   claim_C2.2 cfgScenario38 fArr1530 600 930 rfl rfl (by decide) (by decide) (by decide),
   claim_C2.2 cfgScenario38 fArr1445 600 885 rfl rfl (by decide) (by decide) (by decide)⟩

/-- C3 (amended).  For a range string free of the sentinel substrings and
containing exactly two parseable times open and close, the v41 range check
accepts t iff open ≤ t ≤ close when open ≤ close, and iff t ≥ open or
t ≤ close when open > close; the overnight window 22:00-05:00 accepts
23:30 and 02:00 and rejects 12:00. -/
theorem claim_C3 :
    (∀ (s t o c : String) (om cm tm : Nat),
        pyIn "24" s = false → pyIn "Daily" s = false →
        pyIn "Closed" s = false → pyIn "N/A" s = false →
        findTimes s.data = [o, c] →
        parseHM o = some om → parseHM c = some cm → parseHM t = some tm →
        check_time_in_range t s =
          (if om ≤ cm then decide (om ≤ tm ∧ tm ≤ cm)
           else decide (om ≤ tm ∨ tm ≤ cm))) ∧
    check_time_in_range "23:30" "22:00-05:00" = true ∧
    check_time_in_range "02:00" "22:00-05:00" = true ∧
    check_time_in_range "12:00" "22:00-05:00" = false := by
  refine ⟨?_, by decide, by decide, by decide⟩
  intro s t o c om cm tm h24 hD hC hN hf ho hc ht
  simp [check_time_in_range, h24, hD, hC, hN, hf, ho, hc, ht]

/-- C3 counterexample.  A window with open = close is NOT treated as
always-open by the v41 check (it accepts only the single instant), and the
v38 check accepts 12:00 for the overnight window 22:00-05:00 because it
never parses the times. -/
theorem claim_C3_cx :
    check_time_in_range "10:00" "09:00-09:00" = false ∧
    check_time_in_range_v38 "12:00" "22:00-05:00" = true := by
  decide

/-- C3 witness: the window characterization instantiated at the overnight
window 22:00-05:00 and target 23:30. -/
theorem claim_C3_w :
    check_time_in_range "23:30" "22:00-05:00" =
      (if (1320 : Nat) ≤ 300 then decide (1320 ≤ 1410 ∧ 1410 ≤ 300)
       else decide ((1320 : Nat) ≤ 1410 ∨ (1410 : Nat) ≤ 300)) :=
  claim_C3.1 "22:00-05:00" "23:30" "22:00" "05:00" 1320 300 1410 (by decide) (by decide)
    (by decide) (by decide) (by decide) (by decide) (by decide) (by decide)

/-- C4.  The no-data fall-through of the hours resolver yields the Unknown
record, which both range checks treat as always open, so a v41 flight is
never classified Origin Closed when the origin hours are the no-data
result. -/
theorem claim_C4 :
    (∀ t, check_time_in_range t noDataHours.hours = true) ∧
    (∀ t, check_time_in_range_v38 t noDataHours.hours = true) ∧
    (∀ (cfg : ConfigV41) (f : Flight), cfg.pHours = noDataHours.hours →
        (classifyV41 cfg f).map Prod.fst ≠ some (some RejectReason.originClosed)) := by
  refine ⟨fun t => check_range_unknown t, fun t => rfl, ?_⟩
  intro cfg f h
  cases hdep : f.depT with
  | none => simp [classifyV41, hdep]
  | some dep =>
    have h1 : origin_closed_v41 cfg dep = false := by
      simp [origin_closed_v41, h, noDataHours, check_range_unknown]
    cases harr : f.arrT with
    | none => simp [classifyV41, hdep, harr, h1]
    | some arr =>
      rw [classifyV41_spec cfg f dep arr hdep harr]
      simp only [specRuleChainV41, h1]
      split_ifs <;> simp_all

/-- C4 witness: a flight under no-data origin hours is rejected, if at
all, for a reason other than Origin Closed. -/
theorem claim_C4_w :
    (classifyV41 cfgUnknown41 fDirect0800).map Prod.fst ≠
      some (some RejectReason.originClosed) :=
  claim_C4.2.2 cfgUnknown41 fDirect0800 rfl

/-- C5 (amended).  There is no Invalid Time Data rejection: a flight whose
departure clock does not parse makes the v41 loop raise (modelled none),
and a flight whose full arrival timestamp does not parse has the
arrives-too-late check silently skipped, so when rules 1-3 pass it is
accepted. -/
theorem claim_C5 :
    (∀ (cfg : ConfigV41) (f : Flight), f.depT = none → classifyV41 cfg f = none) ∧
    (∀ (cfg : ConfigV41) (f : Flight) (dep arr : Nat),
        f.depT = some dep → f.arrT = some arr → f.arrFull = none →
        origin_closed_v41 cfg dep = false → too_early_v41 cfg dep = false →
        short_conn_v41 cfg f = false →
        (classifyV41 cfg f).map Prod.fst = some none) := by
  constructor
  · intro cfg f h
    simp [classifyV41, h]
  · intro cfg f dep arr hdep harr hfull h1 h2 h3
    rw [classifyV41_spec cfg f dep arr hdep harr]
    cases hl : cfg.latestArr <;>
      simp [specRuleChainV41, h1, h2, h3, too_late_v41, hfull, hl]

/-- C5 counterexample.  Under a set deadline, the flight with an
unparsable departure clock crashes classification rather than being
rejected with a distinct reason, and the flight with an unparsable full
arrival timestamp is silently accepted. -/
theorem claim_C5_cx :
    classifyV41 cfgScenario41 fBadDep = none ∧
    cfgScenario41.latestArr = some 2340 ∧
    fBadArrFull.arrFull = none ∧
    (classifyV41 cfgScenario41 fBadArrFull).map Prod.fst = some none := by
  decide

/-- C5 witness: the two malformed-time behaviours at concrete inputs. -/
theorem claim_C5_w :
    classifyV41 cfgScenario41 fBadDep = none ∧
    (classifyV41 cfgScenario41 fBadArrFull).map Prod.fst = some none :=
  ⟨claim_C5.1 cfgScenario41 fBadDep rfl,
   claim_C5.2 cfgScenario41 fBadArrFull 600 930 rfl rfl rfl (by decide) (by decide)
     (by decide)⟩

/-- C6 (amended).  An otherwise-accepted v41 flight whose recovery clock
falls outside the destination window is still accepted and carries the
advisory AM Recovery note; the verdict contains nothing else, in
particular no next-opening delay, no 30-minute buffer and no transit-
minute adjustment. -/
theorem claim_C6 :
    ∀ (cfg : ConfigV41) (f : Flight) (dep arr : Nat),
      f.depT = some dep → f.arrT = some arr →
      origin_closed_v41 cfg dep = false → too_early_v41 cfg dep = false →
      short_conn_v41 cfg f = false → too_late_v41 cfg f = false →
      check_time_in_range (clockToStr (recClock arr)) cfg.dHours = false →
      classifyV41 cfg f =
        some (none, some ("AM Recovery (Closed at " ++ clockToStr (recClock arr) ++ ")")) := by
  intro cfg f dep arr hdep harr h1 h2 h3 h4 hrec
  simp [classifyV41, hdep, harr, h1, hrec, chainV41_none, h2, h3, h4]

/-- C6 counterexample.  In the scenario of the spec (window 08:00-22:00,
arrival 23:00, recovery instant 00:00) the complete verdict is acceptance
plus the note; no 510-minute delay to the 08:30 reopening exists anywhere
in the output. -/
theorem claim_C6_cx :
    classifyV41 cfgRecovery fArr2300 =
      some (none, some "AM Recovery (Closed at 00:00)") := by
  decide

/-- C6 witness: the amended statement at the concrete recovery scenario. -/
theorem claim_C6_w :
    classifyV41 cfgRecovery fArr2300 =
      some (none, some ("AM Recovery (Closed at " ++ clockToStr (recClock 1380) ++ ")")) :=
  claim_C6 cfgRecovery fArr2300 600 1380 rfl rfl (by decide) (by decide) (by decide)
    (by decide) (by decide)

/-- C7 (amended).  The reliability score always lies between -20 and 100;
the lower end is reached when all four weather deductions apply, so the
claimed lower bound 0 does not hold in general. -/
theorem claim_C7 :
    ∀ status taf, -20 ≤ analyze_reliability_score status taf ∧
      analyze_reliability_score status taf ≤ 100 := by
  intro status taf
  simp only [analyze_reliability_score, weatherScore]
  split_ifs <;> norm_num

/-- C7 counterexample.  A TAF triggering all four deductions on an active
flight yields score -20, outside the claimed 0..100 range. -/
theorem claim_C7_cx :
    ¬(0 ≤ analyze_reliability_score "active" "TS FG SN VV" ∧
      analyze_reliability_score "active" "TS FG SN VV" ≤ 100) := by
  decide

/-- C8.  Two verdicts land in the same schedule row iff their grouping
keys (carrier, flight-number sequence, departure clock, arrival clock)
coincide: every key owns exactly one row (keys are nodup) and a day is
recorded under key k iff some verdict with key k contributed it (union);
the day sort is a permutation ordered by the canonical key, whose values
put Mon..Sun at 0..6 and One-Time last at 7. -/
theorem claim_C8 :
    (∀ (vs : List VRow) (k : GKey) (d : String),
        hasDay (groupRows vs) k d ↔ ∃ v, v ∈ vs ∧ k = keyOf v ∧ d = v.day) ∧
    (∀ vs : List VRow, ((groupRows vs).map Prod.fst).Nodup) ∧
    (∀ ds : List String,
        List.Perm (sortDays ds) ds ∧
        List.Sorted (fun a b => canonIdx a ≤ canonIdx b) (sortDays ds)) ∧
    (canonIdx "Mon" = 0 ∧ canonIdx "Tue" = 1 ∧ canonIdx "Wed" = 2 ∧
      canonIdx "Thu" = 3 ∧ canonIdx "Fri" = 4 ∧ canonIdx "Sat" = 5 ∧
      canonIdx "Sun" = 6 ∧ canonIdx "One-Time" = 7) :=
  ⟨hasDay_groupRows, fun vs => nodupKeys_foldl vs [] (by simp), sortDays_spec, by decide⟩

/-- C9.  Raising the pickup drive buffer never makes the earliest
departure earlier, and raising the delivery drive buffer never makes the
latest arrival later. -/
theorem claim_C9 :
    (∀ pickupInstant driveMin b b2 : Int, b ≤ b2 →
        earliest_dep_dt pickupInstant driveMin b ≤
          earliest_dep_dt pickupInstant driveMin b2) ∧
    (∀ deadline driveMin b b2 : Int, b ≤ b2 →
        latest_arr_dt deadline driveMin b2 ≤ latest_arr_dt deadline driveMin b) := by
  constructor
  · intro p d b b2 h
    have h2 : max d b ≤ max d b2 := max_le_max le_rfl h
    simp only [earliest_dep_dt, total_prep]
    omega
  · intro dl d b b2 h
    have h2 : max d b ≤ max d b2 := max_le_max le_rfl h
    simp only [latest_arr_dt, total_post]
    omega

/-- C9 witness: both monotonicity directions at concrete buffers. -/
theorem claim_C9_w :
    earliest_dep_dt 540 90 120 ≤ earliest_dep_dt 540 90 150 ∧
    latest_arr_dt 2520 40 150 ≤ latest_arr_dt 2520 40 120 :=
  ⟨claim_C9.1 540 90 120 150 (by norm_num), claim_C9.2 2520 40 120 150 (by norm_num)⟩

/-- C10.  A flight whose status lower-cases to cancelled, incident or
diverted scores exactly 0 and gets final status NO-GO / RED, whatever the
TAF says. -/
theorem claim_C10 :
    ∀ status taf,
      (pyLower status = "cancelled" ∨ pyLower status = "incident" ∨
        pyLower status = "diverted") →
      analyze_reliability_score status taf = 0 ∧
      analyze_reliability_status status taf = "NO-GO / RED" := by
  intro status taf h
  have hb : isBadStatus status = true := by
    rcases h with h | h | h <;> simp [isBadStatus, h]
  refine ⟨by simp [analyze_reliability_score, hb], ?_⟩
  simp [analyze_reliability_status, analyze_reliability_score, hb]

/-- C10 witness: a cancelled flight in stormy weather scores 0 and is
NO-GO / RED. -/
theorem claim_C10_w :
    analyze_reliability_score "Cancelled" "TS SN" = 0 ∧
    analyze_reliability_status "Cancelled" "TS SN" = "NO-GO / RED" :=
  claim_C10 "Cancelled" "TS SN" (Or.inl (by decide))

end CargoAgent
